import Mathlib

/-!
Verification of `arena_event_odds.py`.

Shallow embedding conventions: Python floats are modelled as exact rationals
(every formula in the source is a ratio of polynomial expressions with small
integer constants, so the rational value is the intended mathematical value of
the computation); Python `round` (banker's rounding, half to even) is modelled
by `pyRound`/`pyRoundTo`; Python `zip` is `List.zipWith` (truncating to the
shorter list); Python `sum` is `List.sum`.  Classes with class attributes and
classmethods become an `Event` structure together with functions on it.
-/

namespace ArenaEventOdds

/-- Source `binomial(n, k)`: `factorial(n) / (factorial(k) * factorial(n-k))`,
computed with true division (a float in Python, a rational here). -/
def binomial (n k : ℕ) : ℚ :=
  (Nat.factorial n : ℚ) / ((Nat.factorial k : ℚ) * (Nat.factorial (n - k) : ℚ))

/-- Source `cf_record_prob_lose3(winrate, numwins)`: probability of winning
`numwins` games in an event that stops at three losses (max wins 7). -/
def cf_record_prob_lose3 (winrate : ℚ) (numwins : ℕ) : ℚ :=
  if numwins = 7 then
    winrate ^ 7 + 7 * winrate ^ 6 * (1 - winrate) * winrate
      + 28 * winrate ^ 6 * (1 - winrate) ^ 2 * winrate
  else
    winrate ^ numwins * (1 - winrate) ^ 2 * binomial (numwins + 2) 2 * (1 - winrate)

/-- Source `cf_record_prob_lose2(winrate, numwins, maxwins=5)`: probability of
winning `numwins` games in an event that stops at two losses.  The Python
default `maxwins=5` is made an explicit argument here. -/
def cf_record_prob_lose2 (winrate : ℚ) (numwins maxwins : ℕ) : ℚ :=
  if numwins = maxwins then
    winrate ^ numwins + numwins * winrate ^ numwins * (1 - winrate)
  else
    winrate ^ numwins * (1 - winrate) ^ 2 * (numwins + 1)

/-- Python `round(x)`: round half to even. -/
def pyRound (x : ℚ) : ℤ :=
  if x - ⌊x⌋ < 1/2 then ⌊x⌋
  else if 1/2 < x - ⌊x⌋ then ⌊x⌋ + 1
  else if ⌊x⌋ % 2 = 0 then ⌊x⌋ else ⌊x⌋ + 1

/-- Python `round(x, ndigits=n)`: round half to even at `n` decimal digits. -/
def pyRoundTo (n : ℕ) (x : ℚ) : ℚ :=
  (pyRound (x * 10 ^ n) : ℚ) / 10 ^ n

/-- Source class attribute `Event.rares = 3` (assumed average of 3 drafted rares). -/
def rares : ℚ := 3

/-- An event class: the data its subclasses define (`gem_rewards`, `admission`,
`pack_rewards`) plus the effective `wincount_odds` method. -/
structure Event where
  gem_rewards : List ℚ
  admission : ℚ
  pack_rewards : List ℚ
  wincount_odds : ℚ → List ℚ

/-- Source `Event.wincount_odds` default implementation:
`[wincount_probs(winrate, numwins) for numwins in range(maxwins+1)]`. -/
def defaultWincountOdds (wincount_probs : ℚ → ℕ → ℚ) (maxwins : ℕ) (winrate : ℚ) :
    List ℚ :=
  (List.range (maxwins + 1)).map (fun numwins => wincount_probs winrate numwins)

/-- Source `Event.weighted_rewards(reward_scheme, winrate)`:
`[odds * rewards for odds, rewards in zip(wincount_odds(winrate), reward_scheme)]`. -/
def Event.weighted_rewards (E : Event) (reward_scheme : List ℚ) (winrate : ℚ) :
    List ℚ :=
  List.zipWith (fun odds rewards => odds * rewards) (E.wincount_odds winrate)
    reward_scheme

/-- Source `Event.avg_gems(winrate)`: `sum(weighted_rewards(gem_rewards, winrate))`. -/
def Event.avg_gems (E : Event) (winrate : ℚ) : ℚ :=
  (E.weighted_rewards E.gem_rewards winrate).sum

/-- The `average_wins` local of `Event.roi`:
`sum(wincount * p for wincount, p in zip(range(8), wincount_odds(winrate)))`. -/
def Event.average_wins (E : Event) (winrate : ℚ) : ℚ :=
  (List.zipWith (fun (wincount : ℕ) (p : ℚ) => (wincount : ℚ) * p) (List.range 8)
    (E.wincount_odds winrate)).sum

/-- The `packs` local of `Event.roi`: `sum(weighted_rewards(pack_rewards, winrate))`. -/
def Event.avg_packs (E : Event) (winrate : ℚ) : ℚ :=
  (E.weighted_rewards E.pack_rewards winrate).sum

/-- The `reward` local of `Event.roi`: `gems + 200*(packs + rares)`. -/
def Event.reward (E : Event) (winrate : ℚ) : ℚ :=
  E.avg_gems winrate + 200 * (E.avg_packs winrate + rares)

/-- The record returned by `Event.roi`, field for field. -/
structure ROI where
  admission : ℚ
  avg_wins : ℚ
  avg_gems : ℤ
  avg_packs : ℚ
  rares : ℚ
  value : ℤ
  profit : ℤ
  roi_ratio : ℚ

/-- Source `Event.roi(winrate)`: the dict literal at the end of the method,
with each `round` call modelled by `pyRound`/`pyRoundTo`. -/
def Event.roi (E : Event) (winrate : ℚ) : ROI :=
  { admission := E.admission
    avg_wins := pyRoundTo 1 (E.average_wins winrate)
    avg_gems := pyRound (E.avg_gems winrate)
    avg_packs := pyRoundTo 1 (E.avg_packs winrate)
    rares := rares
    value := pyRound (E.reward winrate)
    profit := pyRound (E.reward winrate - E.admission)
    roi_ratio := pyRoundTo 2 (E.reward winrate / E.admission) }

/-- Source class `QuickDraft` (`wincount_probs = cf_record_prob_lose3`, `maxwins = 7`). -/
def QuickDraft : Event :=
  { gem_rewards := [50, 100, 200, 300, 450, 650, 850, 950]
    admission := 750
    pack_rewards := [1, 1, 1, 1, 1, 1, 1, 2]
    wincount_odds := defaultWincountOdds cf_record_prob_lose3 7 }

/-- Source `TradDraft.wincount_odds`: case-count probabilities for the three
fixed rounds, `[cc*pow(1-w,3-wc)*pow(w,wc) for cc, wc in zip([1,3,3,1], range(4))]`. -/
def tradDraftWincountOdds (winrate : ℚ) : List ℚ :=
  List.zipWith
    (fun (cc : ℚ) (wincount : ℕ) => cc * (1 - winrate) ^ (3 - wincount) * winrate ^ wincount)
    [1, 3, 3, 1] (List.range 4)

/-- Source class `TradDraft`. -/
def TradDraft : Event :=
  { gem_rewards := [0, 0, 1000, 3000]
    admission := 1500
    pack_rewards := [1, 1, 4, 6]
    wincount_odds := tradDraftWincountOdds }

/-- Source class `PremierDraft` (`wincount_probs = cf_record_prob_lose3`, `maxwins = 7`). -/
def PremierDraft : Event :=
  { gem_rewards := [50, 100, 250, 1000, 1400, 1600, 1800, 2200]
    admission := 1500
    pack_rewards := [1, 1, 2, 2, 3, 4, 5, 6]
    wincount_odds := defaultWincountOdds cf_record_prob_lose3 7 }

/-- Source `gems_per_sealed(winrate)`. -/
def gems_per_sealed (winrate : ℚ) : ℚ :=
  (List.zipWith (fun odds rewards => odds * rewards)
    ((List.range 8).map (fun numwins => cf_record_prob_lose3 winrate numwins))
    [200, 400, 600, 1200, 1400, 1600, 2000, 2200]).sum

/-- Source `gems_per_trad_sealed(winrate)` (lose-2 rule with `maxwins=4`). -/
def gems_per_trad_sealed (winrate : ℚ) : ℚ :=
  (List.zipWith (fun odds rewards => odds * rewards)
    ((List.range 5).map (fun numwins => cf_record_prob_lose2 winrate numwins 4))
    [200, 500, 1200, 1800, 2200]).sum

/-- The full lose-2 distribution for an arbitrary `maxwins`, following the
`Event.wincount_odds` pattern `[probs(winrate, k) for k in range(maxwins+1)]`. -/
def lose2Odds (winrate : ℚ) (maxwins : ℕ) : List ℚ :=
  (List.range (maxwins + 1)).map (fun numwins => cf_record_prob_lose2 winrate numwins maxwins)

/-- Modelled from the spec (claim C10): the standard truncated negative-binomial
term for exactly `k` wins before the third loss, `C(k+2,2) * p^k * (1-p)^3`. -/
def negBinomTerm (p : ℚ) (k : ℕ) : ℚ :=
  ((k + 2).choose 2 : ℚ) * p ^ k * (1 - p) ^ 3

/-- Proof infrastructure for the monotonicity claim: `binomTail n k p` is the
upper tail `P(Bin(n, p) ≥ k)` of a binomial distribution, defined by the
first-trial recursion.  Every expected-gems curve of the program decomposes as
a nonnegative combination of such tails (each tail `P(win count ≥ k)` of a
stopping rule equals the chance of `≥ k` wins in a fixed number of games). -/
def binomTail : ℕ → ℕ → ℚ → ℚ
  | _, 0, _ => 1
  | 0, _ + 1, _ => 0
  | n + 1, k + 1, p => p * binomTail n k p + (1 - p) * binomTail n (k + 1) p

/-- Modelled from the spec (§4.2, claim C4): `expectedWinCount = Σ k·distribution[k]`,
written as an index-wise sum to compare with the zip-based source computation. -/
def expectedWinCount (dist : List ℚ) : ℚ :=
  ∑ k ∈ Finset.range dist.length, (k : ℚ) * dist.getD k 0

/-- Modelled from the spec (§4.2, claims C4 and C7): `expectedReward` is the dot
product of the distribution with a reward table, as an index-wise sum. -/
def expectedReward (dist rewards : List ℚ) : ℚ :=
  ∑ k ∈ Finset.range dist.length, dist.getD k 0 * rewards.getD k 0

lemma binomial_eq_choose {n k : ℕ} (h : k ≤ n) : binomial n k = (n.choose k : ℚ) := by
  rw [binomial, Nat.cast_choose ℚ h]

/-- C2: for every p in [0,1] and every integer k in [0,6], `cf_record_prob_lose3`
returns exactly `p^k * (1-p)^2 * C(k+2,2) * (1-p)` (the trailing `(1-p)` factor
included), and for k = 7 it returns exactly
`p^7 + 7*p^6*(1-p)*p + 28*p^6*(1-p)^2*p`. -/
theorem C2_lose3_closed_forms (p : ℚ) (hp0 : 0 ≤ p) (hp1 : p ≤ 1) :
    (∀ k : ℕ, k ≤ 6 →
      cf_record_prob_lose3 p k
        = p ^ k * (1 - p) ^ 2 * ((k + 2).choose 2 : ℚ) * (1 - p))
    ∧ cf_record_prob_lose3 p 7
        = p ^ 7 + 7 * p ^ 6 * (1 - p) * p + 28 * p ^ 6 * (1 - p) ^ 2 * p := by
  constructor
  · intro k hk
    rw [cf_record_prob_lose3, if_neg (by omega : ¬ k = 7),
      binomial_eq_choose (by omega : 2 ≤ k + 2)]
  · rw [cf_record_prob_lose3, if_pos rfl]

/-- Witness for C2 at p = 1/2, k = 3. -/
theorem C2_lose3_closed_forms_witness :
    (0 : ℚ) ≤ 1/2 ∧ (1/2 : ℚ) ≤ 1 ∧ (3 : ℕ) ≤ 6
    ∧ cf_record_prob_lose3 (1/2) 3
        = (1/2) ^ 3 * (1 - 1/2) ^ 2 * (((3 : ℕ) + 2).choose 2 : ℚ) * (1 - 1/2) :=
  ⟨by norm_num, by norm_num, by norm_num,
    (C2_lose3_closed_forms (1/2) (by norm_num) (by norm_num)).1 3 (by norm_num)⟩

/-- C3: for every p in [0,1], every maxWins, and every k < maxWins,
`cf_record_prob_lose2` returns exactly `p^k * (1-p)^2 * (k+1)`, and for
k = maxWins it returns exactly `p^k + k*p^k*(1-p)`. -/
theorem C3_lose2_closed_forms (p : ℚ) (hp0 : 0 ≤ p) (hp1 : p ≤ 1) (maxwins : ℕ) :
    (∀ k : ℕ, k < maxwins →
      cf_record_prob_lose2 p k maxwins = p ^ k * (1 - p) ^ 2 * ((k : ℚ) + 1))
    ∧ cf_record_prob_lose2 p maxwins maxwins
        = p ^ maxwins + (maxwins : ℚ) * p ^ maxwins * (1 - p) := by
  constructor
  · intro k hk
    rw [cf_record_prob_lose2, if_neg (by omega : ¬ k = maxwins)]
  · rw [cf_record_prob_lose2, if_pos rfl]

/-- Witness for C3 at p = 1/2, maxWins = 5 (the Python default), k = 3. -/
theorem C3_lose2_closed_forms_witness :
    (0 : ℚ) ≤ 1/2 ∧ (1/2 : ℚ) ≤ 1 ∧ (3 : ℕ) < 5
    ∧ cf_record_prob_lose2 (1/2) 3 5 = (1/2) ^ 3 * (1 - 1/2) ^ 2 * (((3 : ℕ) : ℚ) + 1)
    ∧ cf_record_prob_lose2 (1/2) 5 5 = (1/2) ^ 5 + ((5 : ℕ) : ℚ) * (1/2) ^ 5 * (1 - 1/2) :=
  ⟨by norm_num, by norm_num, by norm_num,
    (C3_lose2_closed_forms (1/2) (by norm_num) (by norm_num) 5).1 3 (by norm_num),
    (C3_lose2_closed_forms (1/2) (by norm_num) (by norm_num) 5).2⟩

/-- C10: for every p and every k in [0,6], the non-terminal branch of
`cf_record_prob_lose3` equals the standard truncated negative-binomial term
`C(k+2,2) * p^k * (1-p)^3`: the trailing `(1-p)` factor is the probability of
the decisive third loss, and the two formulations are the same function. -/
theorem C10_negbinom_equivalence (p : ℚ) (k : ℕ) (hk : k ≤ 6) :
    cf_record_prob_lose3 p k = negBinomTerm p k := by
  rw [cf_record_prob_lose3, if_neg (by omega : ¬ k = 7), negBinomTerm,
    binomial_eq_choose (by omega : 2 ≤ k + 2)]
  ring

/-- Witness for C10 at p = 1/3, k = 2. -/
theorem C10_negbinom_equivalence_witness :
    (2 : ℕ) ≤ 6 ∧ cf_record_prob_lose3 (1/3) 2 = negBinomTerm (1/3) 2 :=
  ⟨by norm_num, C10_negbinom_equivalence (1/3) 2 (by norm_num)⟩

/-- C6 counterexample: out-of-range win counts do not fail.  At k = 8 (outside
[0,7]) `cf_record_prob_lose3` returns the else-branch value 45/2048, and at
p = 2 (outside [0,1]) `cf_record_prob_lose2` returns 4; no `DomainError`
exists anywhere in the code. -/
theorem C6_counterexample :
    cf_record_prob_lose3 (1/2) 8 = 45/2048 ∧ cf_record_prob_lose2 2 1 5 = 4 := by
  constructor <;>
    norm_num [cf_record_prob_lose3, cf_record_prob_lose2, binomial, Nat.factorial]

/-- C6 amended: the distribution functions perform no input validation and
raise no error for any rational p (in or out of [0,1]) and any natural k: every
call simply evaluates the branch selected by comparing k with the cap. -/
theorem C6_no_validation (p : ℚ) (k maxwins : ℕ) :
    (k ≠ 7 →
      cf_record_prob_lose3 p k = p ^ k * (1 - p) ^ 2 * binomial (k + 2) 2 * (1 - p))
    ∧ (k ≠ maxwins →
      cf_record_prob_lose2 p k maxwins = p ^ k * (1 - p) ^ 2 * ((k : ℚ) + 1)) := by
  constructor
  · intro h; rw [cf_record_prob_lose3, if_neg h]
  · intro h; rw [cf_record_prob_lose2, if_neg h]

/-- Witness for the amended C6 at the out-of-range input p = 2, k = 8. -/
theorem C6_no_validation_witness :
    (8 : ℕ) ≠ 7
    ∧ cf_record_prob_lose3 2 8 = 2 ^ 8 * (1 - 2) ^ 2 * binomial (8 + 2) 2 * (1 - 2)
    ∧ (8 : ℕ) ≠ 5
    ∧ cf_record_prob_lose2 2 8 5 = 2 ^ 8 * (1 - 2) ^ 2 * (((8 : ℕ) : ℚ) + 1) :=
  ⟨by norm_num, (C6_no_validation 2 8 5).1 (by norm_num),
    by norm_num, (C6_no_validation 2 8 5).2 (by norm_num)⟩

/-- C5: the known literal values, displayed exactly as by the source doctests:
`pct` (round to one decimal of the percentage) reproduces 23.2, 10.2, 23.3 and
11.0, and rounded expected currency for the lose-3 sealed format at p = 0.5 is
1002. -/
theorem C5_known_literals :
    pyRoundTo 1 (100 * cf_record_prob_lose3 (6/10) 7) = 232/10
    ∧ pyRoundTo 1 (100 * cf_record_prob_lose3 (45/100) 4) = 102/10
    ∧ pyRoundTo 1 (100 * cf_record_prob_lose2 (6/10) 5 5) = 233/10
    ∧ pyRoundTo 1 (100 * cf_record_prob_lose2 (45/100) 3 5) = 110/10
    ∧ pyRound (gems_per_sealed (5/10)) = 1002 := by
  refine ⟨?_, ?_, ?_, ?_, ?_⟩ <;>
    norm_num [pyRoundTo, pyRound, cf_record_prob_lose3, cf_record_prob_lose2,
      gems_per_sealed, binomial, Nat.factorial, List.range_succ]

lemma lose3_odds_eq (p : ℚ) :
    defaultWincountOdds cf_record_prob_lose3 7 p
      = [cf_record_prob_lose3 p 0, cf_record_prob_lose3 p 1, cf_record_prob_lose3 p 2,
         cf_record_prob_lose3 p 3, cf_record_prob_lose3 p 4, cf_record_prob_lose3 p 5,
         cf_record_prob_lose3 p 6, cf_record_prob_lose3 p 7] := by
  simp [defaultWincountOdds, List.range_succ]

lemma tradDraft_odds_eq (p : ℚ) :
    TradDraft.wincount_odds p
      = [1 * (1 - p) ^ 3 * p ^ 0, 3 * (1 - p) ^ 2 * p ^ 1,
         3 * (1 - p) ^ 1 * p ^ 2, 1 * (1 - p) ^ 0 * p ^ 3] := by
  show tradDraftWincountOdds p = _
  simp [tradDraftWincountOdds, List.range_succ]

lemma lose3_sum (p : ℚ) : (defaultWincountOdds cf_record_prob_lose3 7 p).sum = 1 := by
  rw [lose3_odds_eq]
  norm_num [cf_record_prob_lose3, binomial, Nat.factorial]
  ring

lemma lose2_partial_sum (p : ℚ) (m : ℕ) :
    ((List.range m).map (fun k : ℕ => p ^ k * (1 - p) ^ 2 * ((k : ℚ) + 1))).sum
      = 1 - p ^ m * (1 + (m : ℚ) * (1 - p)) := by
  induction m with
  | zero => simp
  | succ m ih =>
    rw [List.range_succ, List.map_append, List.sum_append, ih]
    push_cast
    simp only [List.map_cons, List.map_nil, List.sum_cons, List.sum_nil]
    ring

lemma lose2Odds_sum (p : ℚ) (m : ℕ) : (lose2Odds p m).sum = 1 := by
  rw [lose2Odds, List.range_succ, List.map_append, List.sum_append]
  have hmap : (List.range m).map (fun numwins => cf_record_prob_lose2 p numwins m)
      = (List.range m).map (fun k : ℕ => p ^ k * (1 - p) ^ 2 * ((k : ℚ) + 1)) := by
    apply List.map_congr_left
    intro k hk
    rw [List.mem_range] at hk
    rw [cf_record_prob_lose2, if_neg (by omega : ¬ k = m)]
  rw [hmap, lose2_partial_sum]
  simp only [List.map_cons, List.map_nil, List.sum_cons, List.sum_nil]
  rw [cf_record_prob_lose2, if_pos rfl]
  ring

lemma tradDraft_sum (p : ℚ) : (TradDraft.wincount_odds p).sum = 1 := by
  rw [tradDraft_odds_eq]
  simp only [List.sum_cons, List.sum_nil]
  ring

/-- C1: for every stopping rule (drop-after-3-losses as used by the 7-win
events, drop-after-2-losses with any maxWins, fixed-3-rounds) and every p in
[0,1], the full win-count distribution for k = 0..maxWins sums to 1 within
1e-9 (in fact exactly, since the embedding computes in exact rationals). -/
theorem C1_normalization (p : ℚ) (hp0 : 0 ≤ p) (hp1 : p ≤ 1) :
    |(defaultWincountOdds cf_record_prob_lose3 7 p).sum - 1| ≤ 1/1000000000
    ∧ (∀ maxwins : ℕ, |(lose2Odds p maxwins).sum - 1| ≤ 1/1000000000)
    ∧ |(TradDraft.wincount_odds p).sum - 1| ≤ 1/1000000000 := by
  refine ⟨?_, fun m => ?_, ?_⟩
  · rw [lose3_sum]; norm_num
  · rw [lose2Odds_sum]; norm_num
  · rw [tradDraft_sum]; norm_num

/-- Witness for C1 at p = 1/3, with maxWins = 4 for the lose-2 rule. -/
theorem C1_normalization_witness :
    (0 : ℚ) ≤ 1/3 ∧ (1/3 : ℚ) ≤ 1
    ∧ |(defaultWincountOdds cf_record_prob_lose3 7 (1/3)).sum - 1| ≤ 1/1000000000
    ∧ |(lose2Odds (1/3) 4).sum - 1| ≤ 1/1000000000
    ∧ |(TradDraft.wincount_odds (1/3)).sum - 1| ≤ 1/1000000000 :=
  ⟨by norm_num, by norm_num,
    (C1_normalization (1/3) (by norm_num) (by norm_num)).1,
    (C1_normalization (1/3) (by norm_num) (by norm_num)).2.1 4,
    (C1_normalization (1/3) (by norm_num) (by norm_num)).2.2⟩

lemma quickDraft_odds_eq (p : ℚ) :
    QuickDraft.wincount_odds p
      = [cf_record_prob_lose3 p 0, cf_record_prob_lose3 p 1, cf_record_prob_lose3 p 2,
         cf_record_prob_lose3 p 3, cf_record_prob_lose3 p 4, cf_record_prob_lose3 p 5,
         cf_record_prob_lose3 p 6, cf_record_prob_lose3 p 7] :=
  lose3_odds_eq p

lemma premierDraft_odds_eq (p : ℚ) :
    PremierDraft.wincount_odds p
      = [cf_record_prob_lose3 p 0, cf_record_prob_lose3 p 1, cf_record_prob_lose3 p 2,
         cf_record_prob_lose3 p 3, cf_record_prob_lose3 p 4, cf_record_prob_lose3 p 5,
         cf_record_prob_lose3 p 6, cf_record_prob_lose3 p 7] :=
  lose3_odds_eq p

lemma pyRound_abs_le (x : ℚ) : |(pyRound x : ℚ) - x| ≤ 1/2 := by
  have h0 : (⌊x⌋ : ℚ) ≤ x := Int.floor_le x
  have h1 : x < ⌊x⌋ + 1 := Int.lt_floor_add_one x
  rw [pyRound]
  split_ifs with hc1 hc2 hc3 <;> push_cast <;> rw [abs_le] <;>
    constructor <;> linarith

lemma pyRoundTo_abs_le (n : ℕ) (x : ℚ) : |pyRoundTo n x - x| ≤ 1 / (2 * 10 ^ n) := by
  have h10 : (0 : ℚ) < 10 ^ n := by positivity
  have h := pyRound_abs_le (x * 10 ^ n)
  rw [pyRoundTo]
  have heq : (pyRound (x * 10 ^ n) : ℚ) / 10 ^ n - x
      = ((pyRound (x * 10 ^ n) : ℚ) - x * 10 ^ n) / 10 ^ n := by
    field_simp
    ring
  rw [heq, abs_div, abs_of_pos h10, div_le_div_iff₀ h10 (by positivity)]
  nlinarith [abs_nonneg ((pyRound (x * 10 ^ n) : ℚ) - x * 10 ^ n)]

lemma sum_zipWith_mul : ∀ l1 l2 : List ℚ, l1.length ≤ l2.length →
    (List.zipWith (fun odds rewards => odds * rewards) l1 l2).sum
      = ∑ k ∈ Finset.range l1.length, l1.getD k 0 * l2.getD k 0 := by
  intro l1
  induction l1 with
  | nil => simp
  | cons a t ih =>
    intro l2 h
    cases l2 with
    | nil => simp at h
    | cons b t2 =>
      simp only [List.zipWith_cons_cons, List.sum_cons, List.length_cons]
      rw [Finset.sum_range_succ']
      simp only [List.getD_cons_succ, List.getD_cons_zero]
      rw [ih t2 (by simpa using h)]
      ring

lemma quickDraft_average_wins (p : ℚ) :
    QuickDraft.average_wins p = expectedWinCount (QuickDraft.wincount_odds p) := by
  simp [Event.average_wins, quickDraft_odds_eq, expectedWinCount, List.range_succ,
    Finset.sum_range_succ]
  ring

lemma tradDraft_average_wins (p : ℚ) :
    TradDraft.average_wins p = expectedWinCount (TradDraft.wincount_odds p) := by
  simp [Event.average_wins, tradDraft_odds_eq, expectedWinCount, List.range_succ,
    Finset.sum_range_succ]
  ring

lemma premierDraft_average_wins (p : ℚ) :
    PremierDraft.average_wins p = expectedWinCount (PremierDraft.wincount_odds p) := by
  simp [Event.average_wins, premierDraft_odds_eq, expectedWinCount, List.range_succ,
    Finset.sum_range_succ]
  ring

lemma quickDraft_gems_spec (p : ℚ) :
    QuickDraft.avg_gems p
      = expectedReward (QuickDraft.wincount_odds p) QuickDraft.gem_rewards := by
  rw [Event.avg_gems, Event.weighted_rewards,
    sum_zipWith_mul _ _ (by simp [QuickDraft, defaultWincountOdds]), expectedReward]

lemma quickDraft_packs_spec (p : ℚ) :
    QuickDraft.avg_packs p
      = expectedReward (QuickDraft.wincount_odds p) QuickDraft.pack_rewards := by
  rw [Event.avg_packs, Event.weighted_rewards,
    sum_zipWith_mul _ _ (by simp [QuickDraft, defaultWincountOdds]), expectedReward]

lemma tradDraft_gems_spec (p : ℚ) :
    TradDraft.avg_gems p
      = expectedReward (TradDraft.wincount_odds p) TradDraft.gem_rewards := by
  rw [Event.avg_gems, Event.weighted_rewards,
    sum_zipWith_mul _ _ (by simp [TradDraft, tradDraftWincountOdds]), expectedReward]

lemma tradDraft_packs_spec (p : ℚ) :
    TradDraft.avg_packs p
      = expectedReward (TradDraft.wincount_odds p) TradDraft.pack_rewards := by
  rw [Event.avg_packs, Event.weighted_rewards,
    sum_zipWith_mul _ _ (by simp [TradDraft, tradDraftWincountOdds]), expectedReward]

lemma premierDraft_gems_spec (p : ℚ) :
    PremierDraft.avg_gems p
      = expectedReward (PremierDraft.wincount_odds p) PremierDraft.gem_rewards := by
  rw [Event.avg_gems, Event.weighted_rewards,
    sum_zipWith_mul _ _ (by simp [PremierDraft, defaultWincountOdds]), expectedReward]

lemma premierDraft_packs_spec (p : ℚ) :
    PremierDraft.avg_packs p
      = expectedReward (PremierDraft.wincount_odds p) PremierDraft.pack_rewards := by
  rw [Event.avg_packs, Event.weighted_rewards,
    sum_zipWith_mul _ _ (by simp [PremierDraft, defaultWincountOdds]), expectedReward]

lemma quickDraft_gems_val : QuickDraft.avg_gems (3/5) = 38986126/78125 := by
  norm_num [Event.avg_gems, Event.weighted_rewards, QuickDraft, lose3_odds_eq,
    cf_record_prob_lose3, binomial, Nat.factorial]

lemma quickDraft_packs_val : QuickDraft.avg_packs (3/5) = 2405834/1953125 := by
  norm_num [Event.avg_packs, Event.weighted_rewards, QuickDraft, lose3_odds_eq,
    cf_record_prob_lose3, binomial, Nat.factorial]

lemma quickDraft_reward_val : QuickDraft.reward (3/5) = 105107798/78125 := by
  rw [Event.reward, quickDraft_gems_val, quickDraft_packs_val]
  norm_num [rares]

/-- C4 counterexample: at p = 0.6 for the 7-win draft, the summary's
`roi ratio` field (1.79) is not `value / admission` (1345/750 = 1.7933…): the
fields are rounded separately, so the exact field equations of the claim fail. -/
theorem C4_counterexample :
    (QuickDraft.roi (3/5)).roi_ratio
      ≠ ((QuickDraft.roi (3/5)).value : ℚ) / (QuickDraft.roi (3/5)).admission := by
  have h1 : (QuickDraft.roi (3/5)).roi_ratio
      = pyRoundTo 2 (QuickDraft.reward (3/5) / 750) := rfl
  have h2 : (QuickDraft.roi (3/5)).value = pyRound (QuickDraft.reward (3/5)) := rfl
  have h3 : (QuickDraft.roi (3/5)).admission = 750 := rfl
  rw [h1, h2, h3, quickDraft_reward_val]
  norm_num [pyRoundTo, pyRound]

/-- C4 amended: the equations hold of the unrounded quantities computed inside
`roi`: the zip-based expected win count equals `Σ k·distribution[k]`, the
zip-based expected gem and pack rewards equal the index-wise dot products, and
the total value is `gems + 200·(packs + rares)`; the summary's stored `value`,
`profit` and `roi ratio` fields are the rounded images of `reward`,
`reward − admission` and `reward / admission`. -/
theorem C4_roi_equations (p : ℚ) :
    QuickDraft.average_wins p = expectedWinCount (QuickDraft.wincount_odds p)
    ∧ TradDraft.average_wins p = expectedWinCount (TradDraft.wincount_odds p)
    ∧ PremierDraft.average_wins p = expectedWinCount (PremierDraft.wincount_odds p)
    ∧ QuickDraft.avg_gems p
        = expectedReward (QuickDraft.wincount_odds p) QuickDraft.gem_rewards
    ∧ TradDraft.avg_gems p
        = expectedReward (TradDraft.wincount_odds p) TradDraft.gem_rewards
    ∧ PremierDraft.avg_gems p
        = expectedReward (PremierDraft.wincount_odds p) PremierDraft.gem_rewards
    ∧ QuickDraft.avg_packs p
        = expectedReward (QuickDraft.wincount_odds p) QuickDraft.pack_rewards
    ∧ TradDraft.avg_packs p
        = expectedReward (TradDraft.wincount_odds p) TradDraft.pack_rewards
    ∧ PremierDraft.avg_packs p
        = expectedReward (PremierDraft.wincount_odds p) PremierDraft.pack_rewards
    ∧ (∀ E : Event,
        E.reward p = E.avg_gems p + 200 * (E.avg_packs p + rares)
        ∧ (E.roi p).value = pyRound (E.reward p)
        ∧ (E.roi p).profit = pyRound (E.reward p - E.admission)
        ∧ (E.roi p).roi_ratio = pyRoundTo 2 (E.reward p / E.admission)) :=
  ⟨quickDraft_average_wins p, tradDraft_average_wins p, premierDraft_average_wins p,
    quickDraft_gems_spec p, tradDraft_gems_spec p, premierDraft_gems_spec p,
    quickDraft_packs_spec p, tradDraft_packs_spec p, premierDraft_packs_spec p,
    fun E => ⟨rfl, rfl, rfl, rfl⟩⟩

/-- C7 counterexample: `weighted_rewards` accepts a reward table of length 2
against the 8-entry QuickDraft distribution, silently truncates, and returns 25
at p = 1/2; no `LengthMismatchError` exists in the code. -/
theorem C7_counterexample :
    (([50, 100] : List ℚ)).length ≠ (QuickDraft.wincount_odds (1/2)).length
    ∧ (QuickDraft.weighted_rewards [50, 100] (1/2)).sum = 25 := by
  constructor
  · simp [quickDraft_odds_eq]
  · norm_num [Event.weighted_rewards, quickDraft_odds_eq, cf_record_prob_lose3,
      binomial, Nat.factorial]

/-- C7 amended: `weighted_rewards` raises no error on a length mismatch: `zip`
truncates to the shorter sequence; whenever the distribution is no longer than
the reward table (in particular when the lengths are equal) its sum is exactly
the index-wise dot product. -/
theorem C7_zip_truncates (E : Event) (scheme : List ℚ) (p : ℚ) :
    (E.weighted_rewards scheme p).length
        = min (E.wincount_odds p).length scheme.length
    ∧ ((E.wincount_odds p).length ≤ scheme.length →
        (E.weighted_rewards scheme p).sum = expectedReward (E.wincount_odds p) scheme) := by
  constructor
  · exact List.length_zipWith _ _ _
  · intro h
    rw [Event.weighted_rewards, sum_zipWith_mul _ _ h, expectedReward]

/-- Witness for the amended C7: QuickDraft with its own (equal-length) gem
reward table at p = 1/2. -/
theorem C7_zip_truncates_witness :
    (QuickDraft.wincount_odds (1/2)).length ≤ QuickDraft.gem_rewards.length
    ∧ (QuickDraft.weighted_rewards QuickDraft.gem_rewards (1/2)).sum
        = expectedReward (QuickDraft.wincount_odds (1/2)) QuickDraft.gem_rewards :=
  ⟨by simp [defaultWincountOdds, QuickDraft],
    (C7_zip_truncates QuickDraft QuickDraft.gem_rewards (1/2)).2
      (by simp [defaultWincountOdds, QuickDraft])⟩

/-- C8 counterexample: `roi` does not return the unrounded expected gems: at
p = 0.6 the `avg gems` field is the integer 499 while the unrounded value is
38986126/78125 = 499.022…; rounding happens inside the core `roi` computation. -/
theorem C8_counterexample :
    ((QuickDraft.roi (3/5)).avg_gems : ℚ) ≠ QuickDraft.avg_gems (3/5) := by
  have h : (QuickDraft.roi (3/5)).avg_gems = pyRound (QuickDraft.avg_gems (3/5)) := rfl
  rw [h, quickDraft_gems_val]
  norm_num [pyRound]

/-- C8 amended: `roi` rounds inside the core computation: each numeric field of
the returned summary is the half-to-even rounding of the corresponding
unrounded double (1 decimal for win count and packs, nearest integer for the
currency fields, 2 decimals for the ratio), hence within half a unit in the
last displayed place of it. -/
theorem C8_rounding_inside_core (E : Event) (p : ℚ) :
    (E.roi p).avg_wins = pyRoundTo 1 (E.average_wins p)
    ∧ |(E.roi p).avg_wins - E.average_wins p| ≤ 1/20
    ∧ (E.roi p).avg_gems = pyRound (E.avg_gems p)
    ∧ |((E.roi p).avg_gems : ℚ) - E.avg_gems p| ≤ 1/2
    ∧ (E.roi p).avg_packs = pyRoundTo 1 (E.avg_packs p)
    ∧ |(E.roi p).avg_packs - E.avg_packs p| ≤ 1/20
    ∧ (E.roi p).value = pyRound (E.reward p)
    ∧ |((E.roi p).value : ℚ) - E.reward p| ≤ 1/2
    ∧ (E.roi p).profit = pyRound (E.reward p - E.admission)
    ∧ (E.roi p).roi_ratio = pyRoundTo 2 (E.reward p / E.admission)
    ∧ |(E.roi p).roi_ratio - E.reward p / E.admission| ≤ 1/200 := by
  refine ⟨rfl, ?_, rfl, pyRound_abs_le _, rfl, ?_, rfl, pyRound_abs_le _, rfl, rfl, ?_⟩
  · have h := pyRoundTo_abs_le 1 (E.average_wins p)
    norm_num at h
    exact h
  · have h := pyRoundTo_abs_le 1 (E.avg_packs p)
    norm_num at h
    exact h
  · have h := pyRoundTo_abs_le 2 (E.reward p / E.admission)
    norm_num at h
    exact h

lemma binomTail_zero (n : ℕ) (p : ℚ) : binomTail n 0 p = 1 := by
  cases n <;> simp [binomTail]

lemma binomTail_nonneg {p : ℚ} (h0 : 0 ≤ p) (h1 : p ≤ 1) :
    ∀ n k, 0 ≤ binomTail n k p := by
  intro n
  induction n with
  | zero =>
    intro k
    cases k with
    | zero => norm_num [binomTail]
    | succ k => norm_num [binomTail]
  | succ n ih =>
    intro k
    cases k with
    | zero => norm_num [binomTail_zero]
    | succ k =>
      simp only [binomTail]
      nlinarith [ih k, ih (k + 1), mul_nonneg h0 (ih k),
        mul_nonneg (show (0:ℚ) ≤ 1 - p by linarith) (ih (k + 1))]

lemma binomTail_le_one {p : ℚ} (h0 : 0 ≤ p) (h1 : p ≤ 1) :
    ∀ n k, binomTail n k p ≤ 1 := by
  intro n
  induction n with
  | zero =>
    intro k
    cases k with
    | zero => norm_num [binomTail]
    | succ k => norm_num [binomTail]
  | succ n ih =>
    intro k
    cases k with
    | zero => norm_num [binomTail_zero]
    | succ k =>
      simp only [binomTail]
      nlinarith [mul_nonneg h0 (sub_nonneg.2 (ih k)),
        mul_nonneg (show (0:ℚ) ≤ 1 - p by linarith) (sub_nonneg.2 (ih (k + 1)))]

lemma binomTail_anti {p : ℚ} (h0 : 0 ≤ p) (h1 : p ≤ 1) :
    ∀ n k, binomTail n (k + 1) p ≤ binomTail n k p := by
  intro n
  induction n with
  | zero =>
    intro k
    cases k with
    | zero => norm_num [binomTail]
    | succ k => norm_num [binomTail]
  | succ n ih =>
    intro k
    cases k with
    | zero =>
      rw [binomTail_zero]
      simp only [binomTail]
      nlinarith [binomTail_le_one h0 h1 n 0, binomTail_le_one h0 h1 n 1,
        mul_nonneg h0 (sub_nonneg.2 (binomTail_le_one h0 h1 n 0)),
        mul_nonneg (show (0:ℚ) ≤ 1 - p by linarith)
          (sub_nonneg.2 (binomTail_le_one h0 h1 n 1))]
    | succ k =>
      simp only [binomTail]
      nlinarith [mul_nonneg h0 (sub_nonneg.2 (ih k)),
        mul_nonneg (show (0:ℚ) ≤ 1 - p by linarith) (sub_nonneg.2 (ih (k + 1)))]

lemma binomTail_mono {a b : ℚ} (ha : 0 ≤ a) (hab : a ≤ b) (hb : b ≤ 1) :
    ∀ n k, binomTail n k a ≤ binomTail n k b := by
  intro n
  induction n with
  | zero =>
    intro k
    cases k with
    | zero => norm_num [binomTail]
    | succ k => norm_num [binomTail]
  | succ n ih =>
    intro k
    cases k with
    | zero => norm_num [binomTail_zero]
    | succ k =>
      simp only [binomTail]
      nlinarith [mul_nonneg ha (sub_nonneg.2 (ih k)),
        mul_nonneg (show (0:ℚ) ≤ 1 - a by linarith) (sub_nonneg.2 (ih (k + 1))),
        mul_nonneg (sub_nonneg.2 hab)
          (sub_nonneg.2 (binomTail_anti (le_trans ha hab) hb n k))]

lemma quickDraft_gems_decomp (p : ℚ) :
    QuickDraft.avg_gems p
      = 50 + 50 * binomTail 3 1 p + 100 * binomTail 4 2 p + 100 * binomTail 5 3 p
        + 150 * binomTail 6 4 p + 200 * binomTail 7 5 p + 200 * binomTail 8 6 p
        + 100 * binomTail 9 7 p := by
  norm_num [Event.avg_gems, Event.weighted_rewards, QuickDraft, lose3_odds_eq,
    cf_record_prob_lose3, binomial, Nat.factorial, binomTail]
  ring

lemma premierDraft_gems_decomp (p : ℚ) :
    PremierDraft.avg_gems p
      = 50 + 50 * binomTail 3 1 p + 150 * binomTail 4 2 p + 750 * binomTail 5 3 p
        + 400 * binomTail 6 4 p + 200 * binomTail 7 5 p + 200 * binomTail 8 6 p
        + 400 * binomTail 9 7 p := by
  norm_num [Event.avg_gems, Event.weighted_rewards, PremierDraft, lose3_odds_eq,
    cf_record_prob_lose3, binomial, Nat.factorial, binomTail]
  ring

lemma tradDraft_gems_decomp (p : ℚ) :
    TradDraft.avg_gems p = 1000 * binomTail 3 2 p + 2000 * binomTail 3 3 p := by
  norm_num [Event.avg_gems, Event.weighted_rewards, TradDraft, tradDraftWincountOdds,
    List.range_succ, binomTail]
  ring

lemma sealed_gems_decomp (p : ℚ) :
    gems_per_sealed p
      = 200 + 200 * binomTail 3 1 p + 200 * binomTail 4 2 p + 600 * binomTail 5 3 p
        + 200 * binomTail 6 4 p + 200 * binomTail 7 5 p + 400 * binomTail 8 6 p
        + 200 * binomTail 9 7 p := by
  norm_num [gems_per_sealed, List.range_succ, cf_record_prob_lose3, binomial,
    Nat.factorial, binomTail]
  ring

lemma trad_sealed_gems_decomp (p : ℚ) :
    gems_per_trad_sealed p
      = 200 + 300 * binomTail 2 1 p + 700 * binomTail 3 2 p + 600 * binomTail 4 3 p
        + 400 * binomTail 5 4 p := by
  norm_num [gems_per_trad_sealed, List.range_succ, cf_record_prob_lose2, binomTail]
  ring

/-- C9: for every supported format, the expected currency reward is a
non-decreasing function of the win probability on [0,1]. -/
theorem C9_expected_gems_monotone (a b : ℚ) (ha : 0 ≤ a) (hab : a ≤ b) (hb : b ≤ 1) :
    QuickDraft.avg_gems a ≤ QuickDraft.avg_gems b
    ∧ PremierDraft.avg_gems a ≤ PremierDraft.avg_gems b
    ∧ TradDraft.avg_gems a ≤ TradDraft.avg_gems b
    ∧ gems_per_sealed a ≤ gems_per_sealed b
    ∧ gems_per_trad_sealed a ≤ gems_per_trad_sealed b := by
  have m := binomTail_mono ha hab hb
  refine ⟨?_, ?_, ?_, ?_, ?_⟩
  · rw [quickDraft_gems_decomp, quickDraft_gems_decomp]
    linarith [m 3 1, m 4 2, m 5 3, m 6 4, m 7 5, m 8 6, m 9 7]
  · rw [premierDraft_gems_decomp, premierDraft_gems_decomp]
    linarith [m 3 1, m 4 2, m 5 3, m 6 4, m 7 5, m 8 6, m 9 7]
  · rw [tradDraft_gems_decomp, tradDraft_gems_decomp]
    linarith [m 3 2, m 3 3]
  · rw [sealed_gems_decomp, sealed_gems_decomp]
    linarith [m 3 1, m 4 2, m 5 3, m 6 4, m 7 5, m 8 6, m 9 7]
  · rw [trad_sealed_gems_decomp, trad_sealed_gems_decomp]
    linarith [m 2 1, m 3 2, m 4 3, m 5 4]

/-- Witness for C9 at a = 1/4, b = 1/2. -/
theorem C9_expected_gems_monotone_witness :
    (0 : ℚ) ≤ 1/4 ∧ (1/4 : ℚ) ≤ 1/2 ∧ (1/2 : ℚ) ≤ 1
    ∧ QuickDraft.avg_gems (1/4) ≤ QuickDraft.avg_gems (1/2)
    ∧ gems_per_trad_sealed (1/4) ≤ gems_per_trad_sealed (1/2) :=
  ⟨by norm_num, by norm_num, by norm_num,
    (C9_expected_gems_monotone (1/4) (1/2) (by norm_num) (by norm_num) (by norm_num)).1,
    (C9_expected_gems_monotone (1/4) (1/2) (by norm_num) (by norm_num)
      (by norm_num)).2.2.2.2⟩

end ArenaEventOdds
